import Mathlib

/-!
Verification development for the trace retrieval and hierarchical
reconstruction subsystem of the datadog-mcp repository
(src/datadog_mcp/tools/get_traces.py and
src/datadog_mcp/utils/formatters.py).

The Python code is shallowly embedded: dictionaries of raw span
attributes become a typed record with Option fields plus an `extra`
association list for the remaining (custom) keys; Python floats are
idealized as exact rationals; the external span-fetch client is an
oracle mapping fetch arguments to the finite list of pages the
successive calls return.
-/

namespace DatadogMcp

/-- Python truthiness of an optional string: None and the empty string
are falsy, every other string is truthy. -/
def pyTruthy : Option String → Bool
  | none => false
  | some s => s ≠ ""

/-- Character-level model of Python str.replace applied with the
single-character pattern used in the source: every occurrence of the
character Z is replaced by the six characters of the string +00:00. -/
def replaceZChars : List Char → List Char
  | [] => []
  | c :: rest =>
      if c = 'Z' then '+' :: '0' :: '0' :: ':' :: '0' :: '0' :: replaceZChars rest
      else c :: replaceZChars rest

/-- Model of start_ts.replace in the source (pattern "Z",
replacement "+00:00"); exact because the pattern is one character. -/
def pyReplaceZ (s : String) : String := ⟨replaceZChars s.data⟩

/-- Decimal digit test on characters. -/
def isDigit (c : Char) : Bool := '0' ≤ c && c ≤ '9'

/-- Numeric value of a decimal digit character. -/
def digitVal (c : Char) : Nat := c.toNat - '0'.toNat

/-- Parse exactly four decimal digits. -/
def parse4 : List Char → Option (Nat × List Char)
  | a :: b :: c :: d :: rest =>
      if isDigit a && isDigit b && isDigit c && isDigit d then
        some (digitVal a * 1000 + digitVal b * 100 + digitVal c * 10 + digitVal d, rest)
      else none
  | _ => none

/-- Parse exactly two decimal digits. -/
def parse2 : List Char → Option (Nat × List Char)
  | a :: b :: rest =>
      if isDigit a && isDigit b then some (digitVal a * 10 + digitVal b, rest)
      else none
  | _ => none

/-- Consume one expected character. -/
def expectChar (c : Char) : List Char → Option (List Char)
  | x :: rest => if x = c then some rest else none
  | [] => none

/-- Gregorian leap-year rule (as used by Python datetime). -/
def isLeapYear (y : Nat) : Bool := (y % 4 = 0 && y % 100 ≠ 0) || y % 400 = 0

/-- Days in a month of a given year, proleptic Gregorian calendar. -/
def daysInMonth (y m : Nat) : Nat :=
  if m = 2 then (if isLeapYear y then 29 else 28)
  else if m = 4 || m = 6 || m = 9 || m = 11 then 30
  else 31

/-- Days in the months strictly before month m of a non-leap year. -/
def cumDaysBefore : Nat → Nat
  | 1 => 0
  | 2 => 31
  | 3 => 59
  | 4 => 90
  | 5 => 120
  | 6 => 151
  | 7 => 181
  | 8 => 212
  | 9 => 243
  | 10 => 273
  | 11 => 304
  | 12 => 334
  | _ => 0

/-- Days from 0001-01-01 to the given date (valid dates only),
proleptic Gregorian calendar; datetime restricts years to 1..9999 so
all arithmetic stays in Nat. -/
def daysSinceEpoch (y m d : Nat) : Nat :=
  let yp := y - 1
  yp * 365 + yp / 4 - yp / 100 + yp / 400 +
    (cumDaysBefore m + (if isLeapYear y && m > 2 then 1 else 0)) + (d - 1)

/-- A parsed datetime value: microseconds since 0001-01-01T00:00:00 on
the naive clock, plus the UTC offset in microseconds when the string
carried one (a tz-aware value) and none when it did not (naive). -/
structure PyDateTime where
  us : Int
  offset : Option Int
deriving DecidableEq, Repr

/-- Parse the optional fractional-seconds part: a dot followed by one
to six digits, yielding microseconds. -/
def parseFraction (cs : List Char) : Option (Nat × List Char) :=
  match cs with
  | '.' :: rest =>
      let ds := rest.takeWhile isDigit
      if ds.length = 0 || ds.length > 6 then none
      else
        let v := ds.foldl (fun acc c => acc * 10 + digitVal c) 0
        some (v * 10 ^ (6 - ds.length), rest.drop ds.length)
  | _ => some (0, cs)

/-- Parse the optional UTC offset suffix, sign then HH:MM, returning
the offset in microseconds; an empty remainder means a naive value. -/
def parseOffset (cs : List Char) : Option (Option Int) :=
  match cs with
  | [] => some none
  | s :: rest =>
      if s = '+' || s = '-' then
        match parse2 rest with
        | none => none
        | some (oh, rest1) =>
          match expectChar ':' rest1 with
          | none => none
          | some rest2 =>
            match parse2 rest2 with
            | none => none
            | some (om, rest3) =>
              if rest3 = [] && oh ≤ 23 && om ≤ 59 then
                let mag : Int := ((oh * 3600 + om * 60) * 1000000 : Nat)
                some (some (if s = '-' then -mag else mag))
              else none
      else none

/-- Parse the time-of-day part HH[:MM[:SS[.ffffff]]] followed by the
optional offset, given the count of days since the epoch. -/
def parseTimePart (days : Nat) (cs : List Char) : Option PyDateTime :=
  match parse2 cs with
  | none => none
  | some (hh, r1) =>
    if hh > 23 then none else
    let contMin : Option (Nat × Nat × List Char) :=
      match r1 with
      | ':' :: r2 =>
          match parse2 r2 with
          | none => none
          | some (mi, r3) =>
            if mi > 59 then none else
            match r3 with
            | ':' :: r4 =>
                match parse2 r4 with
                | none => none
                | some (ss, r5) =>
                  if ss > 59 then none else
                  match parseFraction r5 with
                  | none => none
                  | some (frac, r6) => some (mi * 60 + ss, frac, r6)
            | _ => some (mi * 60, 0, r3)
      | _ => some (0, 0, r1)
    match contMin with
    | none => none
    | some (minsec, frac, r7) =>
      match parseOffset r7 with
      | none => none
      | some off =>
        some ⟨(((days * 86400 + hh * 3600 + minsec) * 1000000 + frac : Nat) : Int), off⟩

/-- Modelled from the library call datetime.fromisoformat used by the
source, on the subset of ISO-8601 the code exercises:
YYYY-MM-DD[sep HH[:MM[:SS[.f..f]]]][(+|-)HH:MM] with sep one of T, t
or space, years 1..9999, fractional part of one to six digits.
Returns none where CPython raises ValueError. -/
def fromisoformat (s : String) : Option PyDateTime :=
  match parse4 s.data with
  | none => none
  | some (y, r1) =>
    if y = 0 then none else
    match expectChar '-' r1 with
    | none => none
    | some r2 =>
      match parse2 r2 with
      | none => none
      | some (m, r3) =>
        if m < 1 || m > 12 then none else
        match expectChar '-' r3 with
        | none => none
        | some r4 =>
          match parse2 r4 with
          | none => none
          | some (d, r5) =>
            if d < 1 || d > daysInMonth y m then none else
            let days := daysSinceEpoch y m d
            match r5 with
            | [] => some ⟨((days * 86400000000 : Nat) : Int), none⟩
            | sep :: r6 =>
                if sep = 'T' || sep = 't' || sep = ' ' then parseTimePart days r6
                else none

/-- The instant used for subtraction: for aware values CPython
subtracts the UTC offset, naive values compare on the naive clock. -/
def dtValue (d : PyDateTime) : Int := d.us - d.offset.getD 0

/-- The message of the TypeError CPython raises when subtracting a
tz-naive from a tz-aware datetime (or vice versa). -/
def pyTypeErrorMsg : String := "cannot subtract offset-naive and offset-aware datetimes"

/-- Model of CPython datetime subtraction (end_dt - start_dt) in
microseconds: defined when both operands are naive or both aware,
raising TypeError (an error value here) when awareness is mixed. -/
def pyDTSub (endDt startDt : PyDateTime) : Except String Int :=
  match endDt.offset, startDt.offset with
  | none, none => .ok (endDt.us - startDt.us)
  | some oe, some os => .ok ((endDt.us - oe) - (startDt.us - os))
  | _, _ => .error pyTypeErrorMsg

/-! ## Data model

The attributes dictionary of a raw span event, restricted to the typed
keys the core reads, plus an association list for the remaining keys
(custom attributes and anything else); a field holding none models an
absent key. -/

/-- The attributes mapping of one raw span event from the search API. -/
structure RawAttrs where
  trace_id : Option String := none
  span_id : Option String := none
  parent_id : Option String := none
  service : Option String := none
  resource_name : Option String := none
  operation_name : Option String := none
  start_timestamp : Option String := none
  end_timestamp : Option String := none
  start : Option Int := none
  duration : Option Int := none
  status : Option String := none
  error : Option Int := none
  env : Option String := none
  tags : Option (List String) := none
  extra : List (String × String) := []
deriving DecidableEq, Repr

/-- One raw span event as returned by the search API: an identifier, a
type tag, and the nested attributes mapping. -/
structure RawSpanEvent where
  id : Option String := none
  type : Option String := none
  attributes : RawAttrs := {}
deriving DecidableEq, Repr

/-- The start_timestamp passthrough field of a canonical span may hold
the raw string or a numeric fallback, mirroring
attrs.get("start_timestamp", attrs.get("start", 0)). -/
inductive SVal where
  | str (s : String)
  | int (n : Int)
deriving DecidableEq, Repr

/-- The normalized span record built by extract_trace_info. -/
structure CanonicalSpan where
  trace_id : String
  span_id : String
  parent_id : Option String
  service : String
  resource_name : String
  operation_name : String
  duration_ns : Int
  duration_ms : ℚ
  start_timestamp : SVal
  status : String
  error : Int
  env : String
  tags : List String
  custom_attributes : List (String × String)
deriving DecidableEq, Repr

/-! ## Rounding and number rendering -/

/-- Round-half-even to the nearest integer, the rounding CPython round
uses (floats idealized as exact rationals); computed on the numerator
and denominator: f is the floor, rem/den the fractional part. -/
def roundHalfEven (q : ℚ) : ℤ :=
  let f : ℤ := q.num.ediv (q.den : ℤ)
  let rem : ℤ := q.num - f * (q.den : ℤ)
  if 2 * rem < (q.den : ℤ) then f
  else if (q.den : ℤ) < 2 * rem then f + 1
  else if f % 2 = 0 then f else f + 1

/-- Model of Python round(x, 2): round-half-even at two decimals. -/
def pyRound2 (q : ℚ) : ℚ := (roundHalfEven (q * 100) : ℚ) / 100

/-! ## Trace/Span Extractor (formatters.extract_trace_info) -/

/-- The duration derivation of extract_trace_info: the explicit
duration attribute when present and nonzero, else the timestamp
difference in nanoseconds when both timestamps are nonempty and parse
(the except clause catches only ValueError and AttributeError, so a
TypeError from subtracting mixed-awareness datetimes propagates),
else 0. The source's int(total_seconds() * 1e9) is idealized as exact
microsecond arithmetic times 1000. -/
def deriveDurationNs (a : RawAttrs) : Except String Int :=
  let duration_ns := a.duration.getD 0
  if duration_ns = 0 then
    let start_ts := a.start_timestamp.getD ""
    let end_ts := a.end_timestamp.getD ""
    if start_ts ≠ "" ∧ end_ts ≠ "" then
      match fromisoformat (pyReplaceZ start_ts), fromisoformat (pyReplaceZ end_ts) with
      | some start_dt, some end_dt =>
          match pyDTSub end_dt start_dt with
          | .ok diff_us => .ok (diff_us * 1000)
          | .error msg => .error msg
      | _, _ => .ok 0
    else .ok 0
  else .ok duration_ns

/-- Key test for custom attribute extraction: Python
key.startswith("@"). -/
def startsWithAt (s : String) : Bool :=
  match s.data with
  | '@' :: _ => true
  | [] => false
  | _ :: _ => false

/-- Extraction of one canonical span from one raw event, the loop body
of extract_trace_info. -/
def extractSpan (ev : RawSpanEvent) : Except String CanonicalSpan :=
  let attrs := ev.attributes
  match deriveDurationNs attrs with
  | .error e => .error e
  | .ok duration_ns =>
    .ok {
      trace_id := attrs.trace_id.getD ""
      span_id := attrs.span_id.getD ""
      parent_id := attrs.parent_id
      service := attrs.service.getD ""
      resource_name := attrs.resource_name.getD ""
      operation_name := attrs.operation_name.getD ""
      duration_ns := duration_ns
      duration_ms := pyRound2 ((duration_ns : ℚ) / 1000000)
      start_timestamp :=
        match attrs.start_timestamp with
        | some s => SVal.str s
        | none =>
          match attrs.start with
          | some n => SVal.int n
          | none => SVal.int 0
      status := attrs.status.getD ""
      error := attrs.error.getD 0
      env := attrs.env.getD ""
      tags := attrs.tags.getD []
      custom_attributes := attrs.extra.filter (fun kv => startsWithAt kv.1)
    }

/-- formatters.extract_trace_info: processes the events in order; an
uncaught exception in the loop body (the mixed-awareness TypeError)
aborts the whole extraction, as in the source. -/
def extract_trace_info : List RawSpanEvent → Except String (List CanonicalSpan)
  | [] => .ok []
  | ev :: rest =>
    match extractSpan ev with
    | .error e => .error e
    | .ok t =>
      match extract_trace_info rest with
      | .error e => .error e
      | .ok ts => .ok (t :: ts)

/-! ## String rendering helpers (Python f-string machinery) -/

/-- Python slice s[:n]. -/
def pyTake (n : Nat) (s : String) : String := ⟨s.data.take n⟩

/-- Python left-justified pad to width w (format spec :<w). -/
def pyPadRight (w : Nat) (s : String) : String :=
  ⟨s.data ++ List.replicate (w - s.data.length) ' '⟩

/-- Python right-justified pad to width w (format spec :>w). -/
def pyPadLeft (w : Nat) (s : String) : String :=
  ⟨List.replicate (w - s.data.length) ' ' ++ s.data⟩

/-- Python format spec :.2f on an exact rational: round-half-even to
two decimals, rendered with exactly two fractional digits. -/
def pyFormatF2 (q : ℚ) : String :=
  let c := roundHalfEven (q * 100)
  let sign := if c < 0 then "-" else ""
  let n := c.natAbs
  sign ++ Nat.repr (n / 100) ++ "." ++ (if n % 100 < 10 then "0" else "") ++ Nat.repr (n % 100)

/-! ## Hierarchy Builder (formatters.format_traces_as_hierarchy) -/

/-- The key set of trace_map, the span_ids present in the input list. -/
def spanIds (traces : List CanonicalSpan) : List String := traces.map (·.span_id)

/-- The root test of format_traces_as_hierarchy: not parent_id, or
parent_id not in trace_map. -/
def hierIsRoot (traces : List CanonicalSpan) (t : CanonicalSpan) : Bool :=
  !pyTruthy t.parent_id || !(spanIds traces).contains (t.parent_id.getD "")

/-- root_traces of format_traces_as_hierarchy, in input order. -/
def rootTraces (traces : List CanonicalSpan) : List CanonicalSpan :=
  traces.filter (hierIsRoot traces)

/-- children_map lookup of format_traces_as_hierarchy: the non-root
spans whose parent_id equals the given id, in input order. -/
def childrenOf (traces : List CanonicalSpan) (pid : String) : List CanonicalSpan :=
  traces.filter (fun t => !hierIsRoot traces t && t.parent_id.getD "" == pid)

/-- format_trace_node: recursive depth-first rendering. The Python
recursion has no guard (a pathological input with duplicate span_ids
ends in RecursionError); the fuel argument models the recursion
budget, and the top-level call passes enough fuel for every input with
distinct span_ids. -/
def formatTraceNode (traces : List CanonicalSpan) : Nat → CanonicalSpan → Nat → List String
  | 0, _, _ => []
  | fuel + 1, t, indent =>
    let pref := String.mk (List.replicate (2 * indent) ' ') ++ (if indent > 0 then "└─ " else "")
    let errorIndicator := if t.error ≠ 0 then "❌" else ""
    let line1 := pref ++ t.service ++ " - " ++ t.operation_name ++ " (" ++
      pyFormatF2 t.duration_ms ++ "ms) " ++ t.status ++ " " ++ errorIndicator
    let resourceLines :=
      if t.resource_name ≠ "" && indent = 0 then
        [String.mk (List.replicate (2 * (indent + 1)) ' ') ++ "Resource: " ++ t.resource_name]
      else []
    line1 :: resourceLines ++
      ((childrenOf traces t.span_id).map (fun c => formatTraceNode traces fuel c (indent + 1))).flatten

/-- formatters.format_traces_as_hierarchy. -/
def formatTracesAsHierarchy (traces : List CanonicalSpan) : String :=
  if traces.isEmpty then "No traces found"
  else
    String.intercalate "\n"
      ((rootTraces traces).map (fun r => formatTraceNode traces traces.length r 0 ++ [""])).flatten

/-! ## Table and text renderers (formatters) -/

/-- formatters.format_traces_as_table. The .get defaults of the source
never fire because the extractor puts every key in the record. -/
def formatTracesAsTable (traces : List CanonicalSpan) : String :=
  if traces.isEmpty then "No traces found"
  else
    let header := "SERVICE | RESOURCE | OPERATION | DURATION (ms) | STATUS | ENV"
    let sepLine := String.mk (List.replicate 100 '-')
    let rows := traces.map (fun t =>
      let errorIndicator := if t.error ≠ 0 then "❌" else ""
      pyPadRight 20 (pyTake 20 t.service) ++ " | " ++
        pyPadRight 30 (pyTake 30 t.resource_name) ++ " | " ++
        pyPadRight 20 (pyTake 20 t.operation_name) ++ " | " ++
        pyPadLeft 13 (pyFormatF2 t.duration_ms) ++ " | " ++
        pyPadRight 6 t.status ++ " " ++ errorIndicator ++ " | " ++ t.env)
    String.intercalate "\n" (header :: sepLine :: rows)

/-- The lines contributed by one span in format_traces_as_text, at
1-based index i. -/
def textSpanLines (i : Nat) (t : CanonicalSpan) : List String :=
  ("\n[" ++ Nat.repr i ++ "] " ++ t.service ++ " - " ++ t.resource_name)
  :: ("    Trace ID: " ++ t.trace_id)
  :: ("    Span ID: " ++ t.span_id)
  :: ((if pyTruthy t.parent_id then ["    Parent ID: " ++ t.parent_id.getD ""] else [])
  ++ ["    Operation: " ++ t.operation_name,
      "    Duration: " ++ pyFormatF2 t.duration_ms ++ "ms",
      "    Status: " ++ t.status ++ " " ++ (if t.error ≠ 0 then "❌ ERROR" else ""),
      "    Environment: " ++ t.env]
  ++ (if t.custom_attributes.isEmpty then [] else
      "    Custom Attributes:" ::
        (t.custom_attributes.take 5).map (fun kv => "      " ++ kv.1 ++ ": " ++ kv.2)))

/-- The enumerate(traces, 1) loop of format_traces_as_text. -/
def textLinesFrom : Nat → List CanonicalSpan → List String
  | _, [] => []
  | i, t :: rest => textSpanLines i t ++ textLinesFrom (i + 1) rest

/-- formatters.format_traces_as_text. -/
def formatTracesAsText (traces : List CanonicalSpan) : String :=
  if traces.isEmpty then "No traces found"
  else String.intercalate "\n" (textLinesFrom 1 traces)

/-! ## Summary renderer (inline in get_traces.handle_call) -/

/-- The root test of the summary branch: no parent_id, or parent_id is
the literal string 0. -/
def summaryIsRoot (t : CanonicalSpan) : Bool :=
  !pyTruthy t.parent_id || t.parent_id.getD "" == "0"

/-- Insertion-ordered grouping step for traces_by_id. -/
def upsertGroup (acc : List (String × List CanonicalSpan)) (tid : String) (t : CanonicalSpan) :
    List (String × List CanonicalSpan) :=
  match acc with
  | [] => [(tid, [t])]
  | (k, v) :: rest =>
      if k == tid then (k, v ++ [t]) :: rest else (k, v) :: upsertGroup rest tid t

/-- traces_by_id: spans grouped by trace_id, keys in first-seen order,
values in input order (Python dict insertion order). -/
def groupByTraceId (traces : List CanonicalSpan) : List (String × List CanonicalSpan) :=
  traces.foldl (fun acc t => upsertGroup acc t.trace_id t) []

/-- Counting step for the per-operation Counter, keys in first-seen
order. -/
def upsertCount (acc : List (String × Nat)) (key : String) : List (String × Nat) :=
  match acc with
  | [] => [(key, 1)]
  | (k, v) :: rest =>
      if k == key then (k, v + 1) :: rest else (k, v) :: upsertCount rest key

/-- Counter(s.get("operation_name") for s in spans), insertion order. -/
def countOps (spans : List CanonicalSpan) : List (String × Nat) :=
  spans.foldl (fun acc s => upsertCount acc s.operation_name) []

/-- Stable insertion keeping counts descending, ties in arrival
order. -/
def insertByCountDesc (x : String × Nat) : List (String × Nat) → List (String × Nat)
  | [] => [x]
  | y :: ys => if y.2 < x.2 then x :: y :: ys else y :: insertByCountDesc x ys

/-- Counter.most_common(n): entries sorted by count descending, stable
on ties, truncated to n. -/
def mostCommon (n : Nat) (l : List (String × Nat)) : List (String × Nat) :=
  (l.foldl (fun acc x => insertByCountDesc x acc) []).take n

/-- Stable insertion keeping duration_ms descending, ties in arrival
order. -/
def insertByDurDesc (x : CanonicalSpan) : List CanonicalSpan → List CanonicalSpan
  | [] => [x]
  | y :: ys => if y.duration_ms < x.duration_ms then x :: y :: ys else y :: insertByDurDesc x ys

/-- sorted(spans, key=duration_ms, reverse=True)[:5], Python sorted
being stable. -/
def topSlowest (spans : List CanonicalSpan) : List CanonicalSpan :=
  (spans.foldl (fun acc x => insertByDurDesc x acc) []).take 5

/-- The summary block emitted for one trace id. -/
def summaryTraceBlock (tid : String) (spans : List CanonicalSpan) : List String :=
  let rootLines :=
    match spans.filter summaryIsRoot with
    | [] => []
    | root :: _ =>
      ["  Root operation: " ++ root.operation_name,
       "  Total duration: " ++ pyFormatF2 root.duration_ms ++ "ms",
       "  Service: " ++ root.service,
       "  Resource: " ++ root.resource_name,
       "  Status: " ++ root.status]
      ++ (if root.error ≠ 0 then ["  Error: Yes"] else [])
  ("Trace: " ++ pyTake 16 tid ++ "...")
  :: ("  Total spans: " ++ Nat.repr spans.length)
  :: (rootLines
  ++ ["  Span breakdown:"]
  ++ (mostCommon 10 (countOps spans)).map (fun oc => "    " ++ oc.1 ++ ": " ++ Nat.repr oc.2)
  ++ ["  Top 5 slowest spans:"]
  ++ (topSlowest spans).map (fun s =>
        "    " ++ pyFormatF2 s.duration_ms ++ "ms - " ++ s.operation_name ++ " - " ++
          pyTake 50 s.resource_name)
  ++ [""])

/-- The summary-format content built inline in handle_call. -/
def summaryContent (traces : List CanonicalSpan) : String :=
  let tracesById := groupByTraceId traces
  String.intercalate "\n"
    (("Total spans: " ++ Nat.repr traces.length)
      :: ("Unique traces: " ++ Nat.repr tracesById.length)
      :: ""
      :: (tracesById.map (fun g => summaryTraceBlock g.1 g.2)).flatten)

/-! ## Child-Span Expander (the include_children block of
get_traces.handle_call) -/

/-- The arguments of one call to the span fetch client that matter to
the expander: the query string and the page size. -/
structure FetchArgs where
  query : String
  limit : Nat
deriving DecidableEq, Repr

/-- The fetch arguments of a child expansion: query trace_id:<id>,
page size 1000. -/
def childFetchArgs (tid : String) : FetchArgs := { query := "trace_id:" ++ tid, limit := 1000 }

/-- One response page of the fetch client: data plus meta.page.after. -/
structure Page where
  data : List RawSpanEvent
  after : Option String
deriving DecidableEq, Repr

/-- The external fetch client as an oracle: for given fetch arguments,
the finite list of pages successive calls return (an exhausted list
models a response of None). -/
abbrev FetchOracle := FetchArgs → List Page

/-- The trace_id an event carries, with None and absent mapped to the
empty string (both are falsy in the source's test). -/
def tidOf (ev : RawSpanEvent) : String := ev.attributes.trace_id.getD ""

/-- The inner while loop of the expander for one trace: consume pages,
accumulating data, until a page carries no (or an empty) cursor; a
missing or empty first page falls back to the original event. -/
def runChildFetch (event : RawSpanEvent) : List Page → Nat → List RawSpanEvent
  | [], pageNum => if pageNum = 1 then [event] else []
  | p :: rest, pageNum =>
    if p.data.isEmpty then (if pageNum = 1 then [event] else [])
    else
      p.data ++
        (match p.after with
         | none => []
         | some c => if c = "" then [] else runChildFetch event rest (pageNum + 1))

/-- The outer loop of the include_children block: events processed in
order, trace_ids_seen threaded through (membership in the seen list);
the first component is all_spans, the second the trace ids expanded,
in order. -/
def expandChildren (oracle : FetchOracle) : List RawSpanEvent → List String → List RawSpanEvent × List String
  | [], _ => ([], [])
  | ev :: rest, seen =>
    let tid := tidOf ev
    if tid ≠ "" ∧ tid ∉ seen then
      let fetched := runChildFetch ev (oracle (childFetchArgs tid)) 1
      let r := expandChildren oracle rest (tid :: seen)
      (fetched ++ r.1, tid :: r.2)
    else
      let r := expandChildren oracle rest seen
      (ev :: r.1, r.2)

/-! ## Format dispatch (get_traces.handle_call) -/

/-- Which renderer the format branch of handle_call runs. -/
inductive RendererChoice where
  | summary
  | debug
  | json
  | hierarchy
  | text
  | table
deriving DecidableEq, Repr

/-- The if/elif chain over format_type in handle_call: summary, debug
and json by name, text picking the hierarchy renderer exactly when
include_children is set, anything else the table renderer. -/
def renderDispatch (format_type : String) (include_children : Bool) : RendererChoice :=
  if format_type = "summary" then .summary
  else if format_type = "debug" then .debug
  else if format_type = "json" then .json
  else if format_type = "text" then
    (if include_children then .hierarchy else .text)
  else .table

/-- The enum of the format input parameter in get_tool_definition. -/
def formatEnumValues : List String := ["table", "text", "json", "debug", "summary"]

/-- Does the first child-fetch attempt yield no data: the oracle has
no page at all (a None response) or its first page has empty data. -/
def firstPageEmpty : List Page → Bool
  | [] => true
  | p :: _ => p.data.isEmpty

/-! ## Concrete fixtures used by witnesses and counterexamples -/

/-- A canonical span with the given span_id and parent_id and neutral
remaining fields. -/
def mkSpan (sid : String) (pid : Option String) : CanonicalSpan :=
  { trace_id := "", span_id := sid, parent_id := pid, service := "", resource_name := "",
    operation_name := "", duration_ns := 0, duration_ms := 0, start_timestamp := .int 0,
    status := "", error := 0, env := "", tags := [], custom_attributes := [] }

/-- A raw event carrying just a span_id and a trace_id. -/
def evSpan (sid tid : String) : RawSpanEvent :=
  { attributes := { trace_id := some tid, span_id := some sid } }

/-! ## Helper lemmas -/

/-- Unfolding of the expander loop body on a cons cell. -/
theorem expandChildren_cons (oracle : FetchOracle) (ev : RawSpanEvent)
    (rest : List RawSpanEvent) (seen : List String) :
    expandChildren oracle (ev :: rest) seen =
      if tidOf ev ≠ "" ∧ tidOf ev ∉ seen then
        (runChildFetch ev (oracle (childFetchArgs (tidOf ev))) 1 ++
            (expandChildren oracle rest (tidOf ev :: seen)).1,
          tidOf ev :: (expandChildren oracle rest (tidOf ev :: seen)).2)
      else
        ((ev :: (expandChildren oracle rest seen).1), (expandChildren oracle rest seen).2) := by
  simp only [expandChildren]

/-- The expansion log counts a trace id once exactly when it is
nonempty, not yet seen, and occurs among the events. -/
theorem expandChildren_log_count (oracle : FetchOracle) (tid : String) :
    ∀ (events : List RawSpanEvent) (seen : List String),
      ((expandChildren oracle events seen).2).count tid =
        if tid ≠ "" ∧ tid ∉ seen ∧ tid ∈ events.map tidOf then 1 else 0 := by
  intro events
  induction events with
  | nil => intro seen; simp [expandChildren]
  | cons ev rest ih =>
    intro seen
    rw [expandChildren_cons]
    by_cases hc : tidOf ev ≠ "" ∧ tidOf ev ∉ seen
    · rw [if_pos hc]
      show List.count tid (tidOf ev :: (expandChildren oracle rest (tidOf ev :: seen)).2) = _
      by_cases htid : tid = tidOf ev
      · subst htid
        rw [List.count_cons_self, ih]
        rw [if_neg (fun hcon => hcon.2.1 (List.mem_cons_self _ _))]
        rw [if_pos ⟨hc.1, hc.2, by rw [List.map_cons]; exact List.mem_cons_self _ _⟩]
      · rw [List.count_cons_of_ne htid, ih]
        have hiff : (tid ≠ "" ∧ tid ∉ tidOf ev :: seen ∧ tid ∈ List.map tidOf rest)
            ↔ (tid ≠ "" ∧ tid ∉ seen ∧ tid ∈ List.map tidOf (ev :: rest)) := by
          constructor
          · rintro ⟨h1, h2, h3⟩
            exact ⟨h1, fun h => h2 (List.mem_cons_of_mem _ h),
              by rw [List.map_cons]; exact List.mem_cons_of_mem _ h3⟩
          · rintro ⟨h1, h2, h3⟩
            refine ⟨h1, ?_, ?_⟩
            · intro h
              rcases List.mem_cons.mp h with h | h
              · exact htid h
              · exact h2 h
            · rw [List.map_cons] at h3
              rcases List.mem_cons.mp h3 with h | h
              · exact absurd h htid
              · exact h
        rw [if_congr hiff rfl rfl]
    · rw [if_neg hc]
      show List.count tid (expandChildren oracle rest seen).2 = _
      rw [ih]
      by_cases htid : tid = tidOf ev
      · subst htid
        rw [if_neg (fun hcon => hc ⟨hcon.1, hcon.2.1⟩),
          if_neg (fun hcon => hc ⟨hcon.1, hcon.2.1⟩)]
      · have hiff : (tid ≠ "" ∧ tid ∉ seen ∧ tid ∈ List.map tidOf rest)
            ↔ (tid ≠ "" ∧ tid ∉ seen ∧ tid ∈ List.map tidOf (ev :: rest)) := by
          constructor
          · rintro ⟨h1, h2, h3⟩
            exact ⟨h1, h2, by rw [List.map_cons]; exact List.mem_cons_of_mem _ h3⟩
          · rintro ⟨h1, h2, h3⟩
            rw [List.map_cons] at h3
            rcases List.mem_cons.mp h3 with h | h
            · exact absurd h htid
            · exact ⟨h1, h2, h⟩
        rw [if_congr hiff rfl rfl]

/-- When every earlier page is nonempty with a continuing cursor and
the final page is nonempty without one, the loop accumulates exactly
the concatenation of all page data. -/
theorem runChildFetch_pages (ev : RawSpanEvent) :
    ∀ (ps : List Page) (p : Page) (n : Nat),
      (∀ q ∈ ps, q.data ≠ [] ∧ q.after ≠ none ∧ q.after ≠ some "") →
      p.data ≠ [] → (p.after = none ∨ p.after = some "") →
      runChildFetch ev (ps ++ [p]) n = ((ps ++ [p]).map Page.data).flatten := by
  intro ps
  induction ps with
  | nil =>
    intro p n _ hd ha
    rw [List.nil_append]
    simp only [runChildFetch]
    rw [if_neg (by simpa [List.isEmpty_iff] using hd)]
    rcases ha with h | h <;> rw [h] <;> simp
  | cons q ps ih =>
    intro p n hqs hd ha
    obtain ⟨hqd, hqa, hqe⟩ := hqs q (List.mem_cons_self q ps)
    rw [List.cons_append]
    simp only [runChildFetch]
    rw [if_neg (by simpa [List.isEmpty_iff] using hqd)]
    cases hafter : q.after with
    | none => exact absurd hafter hqa
    | some c =>
      have hc : c ≠ "" := by intro h; subst h; exact hqe hafter
      show (q.data ++ if c = "" then [] else runChildFetch ev (ps ++ [p]) (n + 1)) = _
      rw [if_neg hc]
      rw [ih p (n + 1) (fun r hr => hqs r (List.mem_cons_of_mem q hr)) hd ha]
      simp

/-- A missing or data-less first page makes the loop fall back to the
original event. -/
theorem runChildFetch_firstEmpty (ev : RawSpanEvent) (pages : List Page)
    (h : firstPageEmpty pages = true) :
    runChildFetch ev pages 1 = [ev] := by
  cases pages with
  | nil => rfl
  | cons p rest =>
    simp only [firstPageEmpty] at h
    simp [runChildFetch, h]

/-- Every span the extractor emits carries the rounded-milliseconds
field computed from its own nanoseconds field. -/
theorem extractSpan_duration_ms (ev : RawSpanEvent) (t : CanonicalSpan)
    (h : extractSpan ev = .ok t) :
    t.duration_ms = pyRound2 ((t.duration_ns : ℚ) / 1000000) := by
  simp only [extractSpan] at h
  cases hd : deriveDurationNs ev.attributes with
  | error e => rw [hd] at h; exact absurd h (by simp)
  | ok d =>
    rw [hd] at h
    have ht := Except.ok.inj h
    rw [← ht]

/-- The invariant of extractSpan_duration_ms lifted to the whole
extraction. -/
theorem extract_trace_info_ms :
    ∀ (evs : List RawSpanEvent) (spans : List CanonicalSpan),
      extract_trace_info evs = .ok spans →
      ∀ s ∈ spans, s.duration_ms = pyRound2 ((s.duration_ns : ℚ) / 1000000) := by
  intro evs
  induction evs with
  | nil =>
    intro spans h s hs
    simp only [extract_trace_info] at h
    have := Except.ok.inj h
    rw [← this] at hs
    exact absurd hs (List.not_mem_nil s)
  | cons ev rest ih =>
    intro spans h s hs
    simp only [extract_trace_info] at h
    cases he : extractSpan ev with
    | error e => rw [he] at h; exact absurd h (by simp)
    | ok t =>
      rw [he] at h
      cases hr : extract_trace_info rest with
      | error e => rw [hr] at h; exact absurd h (by simp)
      | ok ts =>
        rw [hr] at h
        have := Except.ok.inj h
        rw [← this] at hs
        rcases List.mem_cons.mp hs with hcase | hcase
        · rw [hcase]
          exact extractSpan_duration_ms ev t he
        · exact ih ts hr s hcase

/-- The empty string never parses. -/
theorem fromisoformat_empty : fromisoformat (pyReplaceZ "") = none := rfl

/-! ## Claim C1 -/

/-- A raw event whose timestamps both parse as ISO-8601 but disagree
in timezone-awareness: the start carries a Z (an offset after the
replace), the end is naive. -/
def c1BadEvent : RawSpanEvent :=
  { attributes := { start_timestamp := some "2023-01-01T12:00:00Z",
                    end_timestamp := some "2023-01-01T13:00:00" } }

/-- C1 counterexample: both timestamps of c1BadEvent parse as
ISO-8601, the explicit duration is absent, yet extraction does not
derive a duration — the datetime subtraction raises TypeError, which
the extractor's except clause (ValueError, AttributeError) does not
catch, so extraction aborts instead of continuing with the timestamp
difference, contradicting the claim's clause that whenever both
timestamps parse, duration_ns equals (end - start). -/
theorem c1_counterexample :
    (fromisoformat (pyReplaceZ "2023-01-01T12:00:00Z")).isSome = true
    ∧ (fromisoformat (pyReplaceZ "2023-01-01T13:00:00")).isSome = true
    ∧ c1BadEvent.attributes.duration = none
    ∧ extract_trace_info [c1BadEvent] = .error pyTypeErrorMsg :=
  ⟨rfl, rfl, rfl, rfl⟩

/-- C1 (amended): duration derivation priority of extract_trace_info.
(a) An explicit nonzero duration attribute is used exactly and the
timestamps are never consulted. (b) Otherwise, when both timestamps
parse as ISO-8601 and agree in timezone-awareness (both carry a UTC
offset or neither does), duration_ns is the end minus start difference
in nanoseconds. (c) Otherwise, when both parse but exactly one carries
an offset, the subtraction raises TypeError out of the extractor
(caught only at the tool-handler boundary). (d) An unparseable (or
missing) timestamp never raises: duration_ns falls back to 0 and
extraction continues. -/
theorem c1_duration_policy :
    (∀ (a : RawAttrs) (d : Int), a.duration = some d → d ≠ 0 →
      deriveDurationNs a = .ok d)
    ∧ (∀ (a : RawAttrs) (s e : PyDateTime), a.duration.getD 0 = 0 →
        fromisoformat (pyReplaceZ (a.start_timestamp.getD "")) = some s →
        fromisoformat (pyReplaceZ (a.end_timestamp.getD "")) = some e →
        s.offset.isSome = e.offset.isSome →
        deriveDurationNs a = .ok ((dtValue e - dtValue s) * 1000))
    ∧ (∀ (a : RawAttrs) (s e : PyDateTime), a.duration.getD 0 = 0 →
        fromisoformat (pyReplaceZ (a.start_timestamp.getD "")) = some s →
        fromisoformat (pyReplaceZ (a.end_timestamp.getD "")) = some e →
        s.offset.isSome ≠ e.offset.isSome →
        deriveDurationNs a = .error pyTypeErrorMsg)
    ∧ (∀ a : RawAttrs, a.duration.getD 0 = 0 →
        (fromisoformat (pyReplaceZ (a.start_timestamp.getD "")) = none ∨
          fromisoformat (pyReplaceZ (a.end_timestamp.getD "")) = none) →
        deriveDurationNs a = .ok 0) := by
  refine ⟨?_, ?_, ?_, ?_⟩
  · intro a d hd hnz
    simp only [deriveDurationNs, hd, Option.getD_some]
    rw [if_neg hnz]
  · intro a s e h0 hs he hoff
    have hsne : a.start_timestamp.getD "" ≠ "" := by
      intro hemp; rw [hemp, fromisoformat_empty] at hs; exact Option.noConfusion hs
    have hene : a.end_timestamp.getD "" ≠ "" := by
      intro hemp; rw [hemp, fromisoformat_empty] at he; exact Option.noConfusion he
    have hcond : a.start_timestamp.getD "" ≠ "" ∧ a.end_timestamp.getD "" ≠ "" :=
      ⟨hsne, hene⟩
    simp only [deriveDurationNs]
    rw [h0, if_pos rfl, if_pos hcond, hs, he]
    show (match pyDTSub e s with
      | .ok diff_us => Except.ok (diff_us * 1000)
      | .error msg => Except.error msg) = _
    rcases s with ⟨sus, soff⟩
    rcases e with ⟨eus, eoff⟩
    cases soff with
    | none =>
      cases eoff with
      | none => simp [pyDTSub, dtValue]
      | some oe => simp at hoff
    | some os =>
      cases eoff with
      | none => simp at hoff
      | some oe => simp [pyDTSub, dtValue]
  · intro a s e h0 hs he hoff
    have hsne : a.start_timestamp.getD "" ≠ "" := by
      intro hemp; rw [hemp, fromisoformat_empty] at hs; exact Option.noConfusion hs
    have hene : a.end_timestamp.getD "" ≠ "" := by
      intro hemp; rw [hemp, fromisoformat_empty] at he; exact Option.noConfusion he
    have hcond : a.start_timestamp.getD "" ≠ "" ∧ a.end_timestamp.getD "" ≠ "" :=
      ⟨hsne, hene⟩
    simp only [deriveDurationNs]
    rw [h0, if_pos rfl, if_pos hcond, hs, he]
    show (match pyDTSub e s with
      | .ok diff_us => Except.ok (diff_us * 1000)
      | .error msg => Except.error msg) = _
    rcases s with ⟨sus, soff⟩
    rcases e with ⟨eus, eoff⟩
    cases soff with
    | none =>
      cases eoff with
      | none => simp at hoff
      | some oe => simp [pyDTSub]
    | some os =>
      cases eoff with
      | none => simp [pyDTSub]
      | some oe => simp at hoff
  · intro a h0 hnone
    simp only [deriveDurationNs]
    rw [h0, if_pos rfl]
    by_cases hne : a.start_timestamp.getD "" ≠ "" ∧ a.end_timestamp.getD "" ≠ ""
    · rw [if_pos hne]
      rcases hnone with h | h
      · rw [h]
      · rw [h]
        cases fromisoformat (pyReplaceZ (a.start_timestamp.getD "")) <;> rfl
    · rw [if_neg hne]

/-- C1 witness: clause (a) of the amended policy at a concrete
attribute record with explicit duration 7. -/
theorem c1_duration_policy_witness :
    deriveDurationNs { duration := some 7 } = .ok 7 :=
  c1_duration_policy.1 { duration := some 7 } 7 rfl (by decide)

/-! ## Claim C2 -/

/-- A span whose span_id is the literal string 0. -/
def c2SpanZero : CanonicalSpan := mkSpan "0" none

/-- A span whose parent_id is the literal string 0. -/
def c2SpanChild : CanonicalSpan := mkSpan "b" (some "0")

/-- C2 counterexample: the hierarchy builder has no special case for
the literal parent_id 0 — when some span has span_id 0, a span with
parent_id 0 is classified as that span's child, not as a root,
contradicting the claim that parent_id 0 always means no parent. -/
theorem c2_counterexample :
    c2SpanChild.parent_id = some "0"
    ∧ hierIsRoot [c2SpanZero, c2SpanChild] c2SpanChild = false := by
  refine ⟨rfl, by decide⟩

/-- C2 (amended): in the hierarchy builder a span is a root iff its
parent_id is empty/absent or does not match any span_id of the input
list; the literal string 0 is not special-cased there (a parent_id of
0 yields a root only because it usually matches no span_id), and root
classification is a total function of the input, so no input list
makes it raise. -/
theorem c2_root_rule (traces : List CanonicalSpan) (t : CanonicalSpan) :
    hierIsRoot traces t = true ↔
      (pyTruthy t.parent_id = false ∨ t.parent_id.getD "" ∉ spanIds traces) := by
  simp only [hierIsRoot, Bool.or_eq_true, Bool.not_eq_true']
  constructor
  · rintro (h | h)
    · exact Or.inl h
    · refine Or.inr ?_
      intro hmem
      rw [show ((spanIds traces).contains (t.parent_id.getD "") = false) ↔
          t.parent_id.getD "" ∉ spanIds traces from by simp] at h
      exact h hmem
  · rintro (h | h)
    · exact Or.inl h
    · refine Or.inr ?_
      rw [show ((spanIds traces).contains (t.parent_id.getD "") = false) ↔
          t.parent_id.getD "" ∉ spanIds traces from by simp]
      exact h

/-! ## Claim C7 -/

/-- A span whose parent_id matches no span_id in its list. -/
def c7Span : CanonicalSpan := mkSpan "a" (some "missing")

/-- C7 counterexample: a span whose nonempty parent_id matches no
span_id of the input is a root for the hierarchy builder but not for
the summary renderer, so the two root-identification predicates do
not agree on every span of every input list. -/
theorem c7_counterexample :
    summaryIsRoot c7Span = false ∧ hierIsRoot [c7Span] c7Span = true := by
  refine ⟨by decide, by decide⟩

/-- C7 (amended): the summary renderer identifies roots as spans whose
parent_id is empty/absent or the literal string 0, while the hierarchy
builder uses empty/absent-or-unmatched; the two predicates agree on a
span precisely when its parent_id is empty/absent, or being the
literal 0 coincides with being unmatched among the input span_ids. -/
theorem c7_root_rules_agreement (traces : List CanonicalSpan) (t : CanonicalSpan) :
    summaryIsRoot t = hierIsRoot traces t ↔
      (pyTruthy t.parent_id = false ∨
        ((t.parent_id.getD "" = "0") ↔ t.parent_id.getD "" ∉ spanIds traces)) := by
  by_cases hp : pyTruthy t.parent_id = false
  · simp [summaryIsRoot, hierIsRoot, hp]
  · have hp2 : pyTruthy t.parent_id = true := by
      cases h : pyTruthy t.parent_id
      · exact absurd h hp
      · rfl
    by_cases h0 : t.parent_id.getD "" = "0" <;>
      by_cases hm : t.parent_id.getD "" ∈ spanIds traces <;>
        simp [summaryIsRoot, hierIsRoot, hp2, h0, hm]

/-! ## Claim C3 -/

/-- C3: over any oracle and any initial event list, the expansion log
contains each trace id exactly once when it is nonempty and occurs
among the events, and never otherwise — one child-expansion sequence
per distinct non-empty trace_id. -/
theorem c3_expansion_dedup (oracle : FetchOracle) (events : List RawSpanEvent) (tid : String) :
    ((expandChildren oracle events []).2).count tid =
      if tid ≠ "" ∧ tid ∈ events.map tidOf then 1 else 0 := by
  rw [expandChildren_log_count]
  by_cases h : tid ≠ "" ∧ tid ∈ events.map tidOf
  · rw [if_pos ⟨h.1, fun hm => (List.not_mem_nil tid) hm, h.2⟩, if_pos h]
  · rw [if_neg (fun hcon => h ⟨hcon.1, hcon.2.2⟩), if_neg h]

/-! ## Claim C4 -/

/-- C4: expanding a single initial span whose trace has pages
ps ++ [p] — every page of ps nonempty with a continuing cursor, p
nonempty with no (or an empty) cursor — issues the child query
trace_id:<id> at page size 1000 via childFetchArgs and accumulates
exactly the concatenation of every page's spans. -/
theorem c4_pagination (oracle : FetchOracle) (ev : RawSpanEvent)
    (ps : List Page) (p : Page)
    (h0 : tidOf ev ≠ "")
    (h1 : oracle (childFetchArgs (tidOf ev)) = ps ++ [p])
    (h2 : ∀ q ∈ ps, q.data ≠ [] ∧ q.after ≠ none ∧ q.after ≠ some "")
    (h3 : p.data ≠ [])
    (h4 : p.after = none ∨ p.after = some "") :
    (expandChildren oracle [ev] []).1 = ((ps ++ [p]).map Page.data).flatten := by
  rw [expandChildren_cons]
  rw [if_pos ⟨h0, List.not_mem_nil (tidOf ev)⟩]
  show runChildFetch ev (oracle (childFetchArgs (tidOf ev))) 1 ++
      (expandChildren oracle [] (tidOf ev :: [])).1 = _
  rw [h1, runChildFetch_pages ev ps p 1 h2 h3 h4]
  show _ ++ ([] : List RawSpanEvent) = _
  rw [List.append_nil]

/-- The single initial span of the C4 scenario, trace t1. -/
def c4InitialEvent : RawSpanEvent := evSpan "s0" "t1"

/-- First child page of the C4 scenario: 3 spans and a cursor. -/
def c4Page1 : Page :=
  { data := [evSpan "s1" "t1", evSpan "s2" "t1", evSpan "s3" "t1"], after := some "cursor1" }

/-- Second child page of the C4 scenario: 1 span, no cursor. -/
def c4Page2 : Page := { data := [evSpan "s4" "t1"], after := none }

/-- The fetch oracle of the C4 scenario. -/
def c4Oracle : FetchOracle :=
  fun args => if args = childFetchArgs "t1" then [c4Page1, c4Page2] else []

/-- C4 witness: the concrete 3-spans-then-1-span scenario yields the 4
fetched spans for the trace. -/
theorem c4_pagination_witness :
    (expandChildren c4Oracle [c4InitialEvent] []).1 =
      [evSpan "s1" "t1", evSpan "s2" "t1", evSpan "s3" "t1", evSpan "s4" "t1"]
    ∧ (expandChildren c4Oracle [c4InitialEvent] []).1.length = 4 := by
  have h := c4_pagination c4Oracle c4InitialEvent [c4Page1] c4Page2
    (by decide) (by decide) (by decide) (by decide) (Or.inl rfl)
  rw [h]
  exact ⟨rfl, rfl⟩

/-! ## Claim C5 -/

/-- C5: an initial span with an empty trace_id, or one whose trace_id
is unseen but whose first child-fetch yields no data, is passed
through unchanged — exactly one copy of it enters the result at its
position, the remaining events are processed normally, and the
expander returns normally rather than surfacing an error. -/
theorem c5_fallback (oracle : FetchOracle) (ev : RawSpanEvent)
    (rest : List RawSpanEvent) (seen : List String)
    (h : tidOf ev = "" ∨
      (tidOf ev ∉ seen ∧ firstPageEmpty (oracle (childFetchArgs (tidOf ev))) = true)) :
    (expandChildren oracle (ev :: rest) seen).1 =
      ev :: (expandChildren oracle rest
        (if tidOf ev = "" then seen else tidOf ev :: seen)).1 := by
  rw [expandChildren_cons]
  by_cases hemp : tidOf ev = ""
  · rw [if_neg (fun hcon => hcon.1 hemp), if_pos hemp]
  · rcases h with h | h
    · exact absurd h hemp
    · rw [if_pos ⟨hemp, h.1⟩, if_neg hemp]
      show runChildFetch ev (oracle (childFetchArgs (tidOf ev))) 1 ++ _ = _
      rw [runChildFetch_firstEmpty ev _ h.2]
      rfl

/-- An initial span with no trace_id at all. -/
def c5NoTidEvent : RawSpanEvent := { attributes := { span_id := some "x" } }

/-- An initial span whose trace t9 has no fetchable children. -/
def c5TidEvent : RawSpanEvent := evSpan "s9" "t9"

/-- The C5 oracle: no pages for any query. -/
def c5EmptyOracle : FetchOracle := fun _ => []

/-- C5 witness: both fallback cases at concrete inputs — an empty
trace_id, and a first child-fetch returning nothing — each pass the
original span through as the only result. -/
theorem c5_fallback_witness :
    (expandChildren c5EmptyOracle [c5NoTidEvent] []).1 = [c5NoTidEvent]
    ∧ (expandChildren c5EmptyOracle [c5TidEvent] []).1 = [c5TidEvent] := by
  constructor
  · have h := c5_fallback c5EmptyOracle c5NoTidEvent [] [] (Or.inl rfl)
    rw [h]
    rfl
  · have h := c5_fallback c5EmptyOracle c5TidEvent [] []
      (Or.inr ⟨List.not_mem_nil _, rfl⟩)
    rw [h]
    rfl

/-! ## Claim C6 -/

/-- C6: on the empty span list each renderer — table, text, hierarchy,
and the summary content — returns its literal message reporting no
data, a non-empty string, and (being total functions) none raises. -/
theorem c6_empty_renderers :
    formatTracesAsTable [] = "No traces found"
    ∧ formatTracesAsText [] = "No traces found"
    ∧ formatTracesAsHierarchy [] = "No traces found"
    ∧ summaryContent [] = "Total spans: 0\nUnique traces: 0\n"
    ∧ formatTracesAsTable [] ≠ "" ∧ formatTracesAsText [] ≠ ""
    ∧ formatTracesAsHierarchy [] ≠ "" ∧ summaryContent [] ≠ "" := by
  refine ⟨rfl, rfl, rfl, rfl, ?_, ?_, ?_, ?_⟩ <;> decide

/-! ## Claim C8 -/

/-- The raw event of the C8 scenario: no explicit duration, start and
end timestamps 50 milliseconds apart. -/
def c8Event : RawSpanEvent :=
  { attributes := { start_timestamp := some "2023-01-01T12:00:00Z",
                    end_timestamp := some "2023-01-01T12:00:00.050Z" } }

/-- The canonical span extraction derives from c8Event. -/
def c8Span : CanonicalSpan :=
  { trace_id := "", span_id := "", parent_id := none, service := "", resource_name := "",
    operation_name := "", duration_ns := 50000000, duration_ms := 50,
    start_timestamp := .str "2023-01-01T12:00:00Z", status := "", error := 0, env := "",
    tags := [], custom_attributes := [] }

/-- C8: every span the extractor produces satisfies
duration_ms = round(duration_ns / 1000000, 2); and the concrete
timestamp pair 12:00:00Z / 12:00:00.050Z with no explicit duration
extracts to duration_ns = 50000000 and duration_ms = 50.0. -/
theorem c8_duration_ms_invariant :
    (∀ (evs : List RawSpanEvent) (spans : List CanonicalSpan),
        extract_trace_info evs = .ok spans →
        ∀ s ∈ spans, s.duration_ms = pyRound2 ((s.duration_ns : ℚ) / 1000000))
    ∧ extract_trace_info [c8Event] = .ok [c8Span]
    ∧ c8Span.duration_ns = 50000000 ∧ c8Span.duration_ms = 50 :=
  ⟨extract_trace_info_ms, by with_unfolding_all rfl, rfl, rfl⟩

/-- C8 witness: the invariant applied to the concrete extraction of
c8Event. -/
theorem c8_duration_ms_invariant_witness :
    c8Span.duration_ms = pyRound2 ((c8Span.duration_ns : ℚ) / 1000000) :=
  c8_duration_ms_invariant.1 [c8Event] [c8Span] c8_duration_ms_invariant.2.1
    c8Span (List.mem_singleton.mpr rfl)

/-! ## Claim C9 -/

/-- C9: the format parameter has no hierarchy value — the renderer
dispatch selects the hierarchy renderer exactly for format text with
include_children true, the narrative text renderer for format text
with include_children false, and the tool definition's format enum
contains no hierarchy entry. -/
theorem c9_text_dispatch :
    renderDispatch "text" true = RendererChoice.hierarchy
    ∧ renderDispatch "text" false = RendererChoice.text
    ∧ formatEnumValues.contains "hierarchy" = false
    ∧ ∀ (fmt : String) (inc : Bool),
        renderDispatch fmt inc = RendererChoice.hierarchy ↔ (fmt = "text" ∧ inc = true) := by
  refine ⟨rfl, rfl, by decide, ?_⟩
  intro fmt inc
  by_cases h1 : fmt = "summary"
  · subst h1; simp [renderDispatch]
  · by_cases h2 : fmt = "debug"
    · subst h2; simp [renderDispatch]
    · by_cases h3 : fmt = "json"
      · subst h3; simp [renderDispatch]
      · by_cases h4 : fmt = "text"
        · subst h4
          cases inc <;> simp [renderDispatch]
        · simp [renderDispatch, h1, h2, h3, h4]

/-! ## Claim C10 -/

/-- C10: with two initial spans sharing one nonempty trace_id, the
expander appends the second span verbatim after the pages fetched for
the first — the raw duplicate rides along in addition to the fetched
spans, so the result can contain the same span twice. -/
theorem c10_duplicate_trace_passthrough (oracle : FetchOracle)
    (e1 e2 : RawSpanEvent) (t : String)
    (h1 : tidOf e1 = t) (h2 : tidOf e2 = t) (h3 : t ≠ "") :
    (expandChildren oracle [e1, e2] []).1 =
      runChildFetch e1 (oracle (childFetchArgs t)) 1 ++ [e2] := by
  subst h1
  rw [expandChildren_cons]
  rw [if_pos ⟨h2 ▸ h3, List.not_mem_nil _⟩]
  show runChildFetch e1 (oracle (childFetchArgs (tidOf e1))) 1 ++
      (expandChildren oracle [e2] [tidOf e1]).1 = _
  congr 1
  rw [expandChildren_cons]
  rw [if_neg (fun hcon => hcon.2 (by rw [h2]; exact List.mem_singleton.mpr rfl))]
  rfl

/-- First initial span of the C10 scenario, trace t7. -/
def c10Event1 : RawSpanEvent := evSpan "p1" "t7"

/-- Second initial span of the C10 scenario, same trace t7. -/
def c10Event2 : RawSpanEvent := evSpan "p2" "t7"

/-- The C10 oracle: one page holding both spans of trace t7. -/
def c10Oracle : FetchOracle :=
  fun args => if args = childFetchArgs "t7" then [{ data := [c10Event1, c10Event2], after := none }] else []

/-- C10 witness: the expanded result holds the second initial span
twice — once from the fetched page and once appended verbatim. -/
theorem c10_duplicate_trace_passthrough_witness :
    (expandChildren c10Oracle [c10Event1, c10Event2] []).1 =
      [c10Event1, c10Event2, c10Event2]
    ∧ ((expandChildren c10Oracle [c10Event1, c10Event2] []).1).count c10Event2 = 2 := by
  have h := c10_duplicate_trace_passthrough c10Oracle c10Event1 c10Event2 "t7"
    rfl rfl (by decide)
  rw [h]
  refine ⟨rfl, by decide⟩

end DatadogMcp
